import Mathlib

/-!
Shallow embedding of the NetMiko MCP server core (`mcp_server.py`):
the device registry (the `connections` and `device_configs` dictionaries of
`NetMikoMCPServer`) and the six tool operations `_connect_device`,
`_disconnect_device`, `_send_command`, `_send_config_commands`,
`_get_device_info`, `_list_connected_devices`, together with the tool
dispatcher `handle_call_tool`.

The NetMiko transport (`ConnectHandler`, `find_prompt`, `send_command`,
`send_config_set`, `disconnect`) is external I/O; it is modelled as a record
of functions (`Transport`) that each return `Except TransportError _`, an
`Except.error` standing for a raised exception.  Python dictionaries are
modelled as association lists with dict-style update and delete.  An
operation's outcome is either a returned `TextContent` payload (`Outcome.res`)
or an exception escaping the operation (`Outcome.raised`).
-/

namespace Netmiko

/-- Opaque transport handle: stands for a `ConnectHandler` object identity. -/
abbrev Session := Nat

/-- Transport-level exceptions: `NetmikoAuthenticationException`,
`NetmikoTimeoutException`, and any other `Exception`.  The payload is the
Python `str(e)` text. -/
inductive TransportError where
  | auth (msg : String)
  | timeout (msg : String)
  | other (msg : String)
deriving DecidableEq

/-- Python `str(e)` on a transport exception. -/
def TransportError.text : TransportError → String
  | .auth m => m
  | .timeout m => m
  | .other m => m

/-- The `DeviceConfig` dataclass (mcp_server.py lines 28-38). -/
structure DeviceConfig where
  host : String
  device_type : String
  username : String
  password : String
  port : Nat := 22
  secret : Option String := none
  timeout : Nat := 30
  session_timeout : Nat := 60
deriving DecidableEq

/-- The keyword dictionary passed to `ConnectHandler` (lines 216-226);
`secret` is included only when the Python value is truthy, i.e. present and
non-empty. -/
structure DeviceParams where
  device_type : String
  host : String
  username : String
  password : String
  port : Nat
  timeout : Nat
  secret : Option String
deriving DecidableEq

/-- Output of `connection.send_command`: raw text, or a list of structured
records when TextFSM parsing applies.  Each record is carried as its rendered
form; record parsing itself is external to the core. -/
inductive CmdOutput where
  | raw (s : String)
  | structured (records : List String)
deriving DecidableEq

/-- The external NetMiko transport capability, one function per call the
server makes.  `Except.error e` models the call raising exception `e`. -/
structure Transport where
  connectHandler : DeviceParams → Except TransportError Session
  find_prompt : Session → Except TransportError String
  send_command : Session → String → Bool → Bool → Bool → Except TransportError CmdOutput
  send_config_set : Session → List String → Bool → Except TransportError String
  disconnect : Session → Except TransportError Unit

/-- The single `TextContent` payload every operation returns, tagged by
whether the producing branch is a success path or an error/failure path. -/
inductive Result where
  | ok (message : String)
  | err (message : String)
deriving DecidableEq

/-- The text carried by a `Result`. -/
def Result.message : Result → String
  | .ok m => m
  | .err m => m

/-- What comes out of one operation call: a returned `Result`, or an
exception that escaped the operation body. -/
inductive Outcome where
  | res (r : Result)
  | raised (e : TransportError)
deriving DecidableEq

/-- Dictionary lookup on an association list (Python `d[k]` / `k in d`). -/
def lookupKey {α : Type} (k : String) : List (String × α) → Option α
  | [] => none
  | p :: rest => if p.1 = k then some p.2 else lookupKey k rest

/-- Dictionary update `d[k] = v`: replace in place if the key is present,
otherwise append (Python dicts keep insertion order). -/
def updAssoc {α : Type} (k : String) (v : α) : List (String × α) → List (String × α)
  | [] => [(k, v)]
  | p :: rest => if p.1 = k then (k, v) :: rest else p :: updAssoc k v rest

/-- Dictionary deletion `del d[k]`: drop every entry with key `k` (a dict
holds at most one). -/
def delAssoc {α : Type} (k : String) : List (String × α) → List (String × α)
  | [] => []
  | p :: rest => if p.1 = k then delAssoc k rest else p :: delAssoc k rest

/-- The mutable server state: `self.connections` and `self.device_configs`
(lines 46-47). -/
structure ServerState where
  connections : List (String × Session)
  device_configs : List (String × DeviceConfig)
deriving DecidableEq

/-- Fresh server state: both dictionaries empty. -/
def initState : ServerState := ⟨[], []⟩

/-- Arguments of the `connect_device` tool, with its schema defaults. -/
structure ConnectArgs where
  device_id : String
  host : String
  device_type : String
  username : String
  password : String
  port : Nat := 22
  secret : Option String := none
  timeout : Nat := 30
deriving DecidableEq

/-- The `DeviceConfig` built at lines 204-212 (session_timeout left at its
default 60). -/
def mkConfig (a : ConnectArgs) : DeviceConfig :=
  { host := a.host, device_type := a.device_type, username := a.username,
    password := a.password, port := a.port, secret := a.secret,
    timeout := a.timeout, session_timeout := 60 }

/-- The `device_params` dict of lines 216-226: `secret` only when truthy. -/
def mkParams (a : ConnectArgs) : DeviceParams :=
  { device_type := a.device_type, host := a.host, username := a.username,
    password := a.password, port := a.port, timeout := a.timeout,
    secret := match a.secret with
      | some sec => if sec = "" then none else some sec
      | none => none }

/-- Failure text of `_connect_device`, per exception class (lines 240-254). -/
def connectErrMsg (device_id : String) : TransportError → String
  | .auth m => "Authentication failed for device " ++ device_id ++ ": " ++ m
  | .timeout m => "Connection timeout for device " ++ device_id ++ ": " ++ m
  | .other m => "Failed to connect to device " ++ device_id ++ ": " ++ m

/-- `_connect_device` (lines 198-254).  The config is stored first; the
session is stored as soon as `ConnectHandler` returns, before the
`find_prompt` liveness probe; every exception is caught by one of the three
`except` clauses. -/
def connect_device (t : Transport) (s : ServerState) (a : ConnectArgs) :
    ServerState × Outcome :=
  let s1 : ServerState :=
    { s with device_configs := updAssoc a.device_id (mkConfig a) s.device_configs }
  match t.connectHandler (mkParams a) with
  | .error e => (s1, .res (.err (connectErrMsg a.device_id e)))
  | .ok conn =>
    let s2 : ServerState :=
      { s1 with connections := updAssoc a.device_id conn s1.connections }
    match t.find_prompt conn with
    | .error e => (s2, .res (.err (connectErrMsg a.device_id e)))
    | .ok prompt =>
      (s2, .res (.ok ("Successfully connected to device " ++ a.device_id ++
        " (" ++ a.host ++ "). Device prompt: " ++ prompt)))

/-- `_disconnect_device` (lines 256-277).  Note the source order: the `del`
of the session entry sits after `connection.disconnect()` inside the `try`,
so when the close raises, the entry is NOT removed. -/
def disconnect_device (t : Transport) (s : ServerState) (device_id : String) :
    ServerState × Outcome :=
  match lookupKey device_id s.connections with
  | none => (s, .res (.ok ("Device " ++ device_id ++ " is not connected")))
  | some conn =>
    match t.disconnect conn with
    | .ok _ =>
      ({ s with connections := delAssoc device_id s.connections },
        .res (.ok ("Successfully disconnected from device " ++ device_id)))
    | .error e =>
      (s, .res (.err ("Error disconnecting from device " ++ device_id ++ ": " ++
        TransportError.text e)))

/-- Rendering of one structured record inside `json.dumps(output, indent=2)`;
record content is opaque to the core, so each record is carried
pre-rendered. -/
def renderRecords (records : List String) : String :=
  match records with
  | [] => "[]"
  | _ => "[\n  " ++ String.intercalate ",\n  " records ++ "\n]"

/-- Python `str(output)` when the transport returned a list (the
`use_textfsm` flag was false but the transport still produced records). -/
def pyStrList (records : List String) : String :=
  "[" ++ String.intercalate ", " records ++ "]"

/-- The `formatted_output` computation of lines 298-302. -/
def formatCmdOutput (use_textfsm : Bool) : CmdOutput → String
  | .raw out => out
  | .structured records =>
    if use_textfsm then renderRecords records else pyStrList records

/-- `_send_command` (lines 279-313). -/
def send_command (t : Transport) (s : ServerState) (device_id command : String)
    (use_textfsm strip_prompt strip_command : Bool) : ServerState × Outcome :=
  match lookupKey device_id s.connections with
  | none =>
    (s, .res (.err ("Device " ++ device_id ++
      " is not connected. Please connect first.")))
  | some conn =>
    match t.send_command conn command use_textfsm strip_prompt strip_command with
    | .error e =>
      (s, .res (.err ("Error executing command on device " ++ device_id ++ ": " ++
        TransportError.text e)))
    | .ok output =>
      (s, .res (.ok ("Command: " ++ command ++ "\n\nOutput:\n" ++
        formatCmdOutput use_textfsm output)))

/-- `_send_config_commands` (lines 315-340); `chr(10).join(commands)` is the
newline join of the command list in the given order. -/
def send_config_commands (t : Transport) (s : ServerState) (device_id : String)
    (commands : List String) (exit_config_mode : Bool) : ServerState × Outcome :=
  match lookupKey device_id s.connections with
  | none =>
    (s, .res (.err ("Device " ++ device_id ++
      " is not connected. Please connect first.")))
  | some conn =>
    match t.send_config_set conn commands exit_config_mode with
    | .error e =>
      (s, .res (.err ("Error executing config commands on device " ++ device_id ++
        ": " ++ TransportError.text e)))
    | .ok output =>
      (s, .res (.ok ("Configuration commands executed:\n" ++
        String.intercalate "\n" commands ++ "\n\nOutput:\n" ++ output)))

/-- JSON string escaping as `json.dumps` performs it on the characters that
can occur here. -/
def jsonEscapeChar (c : Char) : String :=
  if c = '\\' then "\\\\"
  else if c = '\"' then "\\\""
  else if c = '\n' then "\\n"
  else if c = '\t' then "\\t"
  else String.singleton c

/-- A JSON string literal. -/
def jsonStr (s : String) : String :=
  "\"" ++ String.join (s.data.map jsonEscapeChar) ++ "\""

/-- `json.dumps(device_info, indent=2)` for the snapshot dict of lines
357-365 (keys in insertion order, `connected` always `true`). -/
def deviceInfoJson (device_id : String) (config : DeviceConfig) (prompt : String) :
    String :=
  "\x7b\n  \"device_id\": " ++ jsonStr device_id ++
  ",\n  \"host\": " ++ jsonStr config.host ++
  ",\n  \"device_type\": " ++ jsonStr config.device_type ++
  ",\n  \"port\": " ++ toString config.port ++
  ",\n  \"prompt\": " ++ jsonStr prompt ++
  ",\n  \"connected\": true,\n  \"session_timeout\": " ++
  toString config.session_timeout ++ "\n\x7d"

/-- Python `str(KeyError(device_id))`: the repr of the missing key. -/
def keyErrorText (device_id : String) : String :=
  "'" ++ device_id ++ "'"

/-- `_get_device_info` (lines 342-376).  Inside the `try`, the config lookup
`self.device_configs[device_id]` runs before `find_prompt`; a `KeyError`
there is caught by the same `except Exception` clause. -/
def get_device_info (t : Transport) (s : ServerState) (device_id : String) :
    ServerState × Outcome :=
  match lookupKey device_id s.connections with
  | none =>
    (s, .res (.err ("Device " ++ device_id ++
      " is not connected. Please connect first.")))
  | some conn =>
    match lookupKey device_id s.device_configs with
    | none =>
      (s, .res (.err ("Error getting device info for " ++ device_id ++ ": " ++
        keyErrorText device_id)))
    | some config =>
      match t.find_prompt conn with
      | .error e =>
        (s, .res (.err ("Error getting device info for " ++ device_id ++ ": " ++
          TransportError.text e)))
      | .ok prompt =>
        (s, .res (.ok (deviceInfoJson device_id config prompt)))

/-- One element of the `connected_devices` list of lines 390-395. -/
structure DeviceEntry where
  device_id : String
  host : String
  device_type : String
  prompt : String
deriving DecidableEq

/-- `json.dumps(connected_devices, indent=2)` for one entry dict. -/
def renderEntry (e : DeviceEntry) : String :=
  "  \x7b\n    \"device_id\": " ++ jsonStr e.device_id ++
  ",\n    \"host\": " ++ jsonStr e.host ++
  ",\n    \"device_type\": " ++ jsonStr e.device_type ++
  ",\n    \"prompt\": " ++ jsonStr e.prompt ++ "\n  \x7d"

/-- `json.dumps(connected_devices, indent=2)` for the whole list. -/
def renderEntries : List DeviceEntry → String
  | [] => "[]"
  | es => "[\n" ++ String.intercalate ",\n" (es.map renderEntry) ++ "\n]"

/-- The loop of lines 386-395: for each `(device_id, connection)` in
`self.connections`, look the config up with `dict.get` (no raise) and, when
present, query the prompt.  `find_prompt` raising propagates immediately:
`_list_connected_devices` has no `try`. -/
def buildEntries (t : Transport) (cfgs : List (String × DeviceConfig)) :
    List (String × Session) → Except TransportError (List DeviceEntry)
  | [] => .ok []
  | (device_id, conn) :: rest =>
    match lookupKey device_id cfgs with
    | none => buildEntries t cfgs rest
    | some config =>
      match t.find_prompt conn with
      | .error e => .error e
      | .ok prompt =>
        match buildEntries t cfgs rest with
        | .error e => .error e
        | .ok es => .ok (⟨device_id, config.host, config.device_type, prompt⟩ :: es)

/-- `_list_connected_devices` (lines 378-400).  The only operation without a
`try`/`except` of its own: a raising `find_prompt` escapes as `.raised`. -/
def list_connected_devices (t : Transport) (s : ServerState) :
    ServerState × Outcome :=
  match s.connections with
  | [] => (s, .res (.ok "No devices currently connected"))
  | c :: rest =>
    match buildEntries t s.device_configs (c :: rest) with
    | .error e => (s, .raised e)
    | .ok entries => (s, .res (.ok (renderEntries entries)))

/-- One incoming tool invocation, over the six advertised tools. -/
inductive ToolCall where
  | connect (a : ConnectArgs)
  | disconnect (device_id : String)
  | sendCommand (device_id command : String)
      (use_textfsm strip_prompt strip_command : Bool)
  | sendConfigSet (device_id : String) (commands : List String)
      (exit_config_mode : Bool)
  | getDeviceInfo (device_id : String)
  | listConnectedDevices

/-- Dispatch of `handle_call_tool` (lines 176-191) to the operation body,
before the dispatcher's own `except` clause. -/
def dispatch (t : Transport) (s : ServerState) : ToolCall → ServerState × Outcome
  | .connect a => connect_device t s a
  | .disconnect device_id => disconnect_device t s device_id
  | .sendCommand device_id command u sp sc =>
      send_command t s device_id command u sp sc
  | .sendConfigSet device_id commands ecm =>
      send_config_commands t s device_id commands ecm
  | .getDeviceInfo device_id => get_device_info t s device_id
  | .listConnectedDevices => list_connected_devices t s

/-- `handle_call_tool` (lines 176-196): the dispatcher wraps every operation
in `try`/`except Exception`, turning an escaped exception into an
`Error: {str(e)}` payload. -/
def handle_call_tool (t : Transport) (s : ServerState) (call : ToolCall) :
    ServerState × Outcome :=
  match dispatch t s call with
  | (s2, .raised e) => (s2, .res (.err ("Error: " ++ TransportError.text e)))
  | (s2, .res r) => (s2, .res r)

/-- The registry invariant of the design: every key of `connections` also
keys `device_configs`. -/
def Inv (s : ServerState) : Prop :=
  ∀ p ∈ s.connections, (lookupKey p.1 s.device_configs).isSome

/-- Registry state after a sequence of dispatched tool calls, each possibly
seeing a different transport behaviour. -/
def runCalls (calls : List (Transport × ToolCall)) : ServerState :=
  calls.foldl (fun s c => (handle_call_tool c.1 s c.2).1) initState

/-! ### Concrete fixtures used to exercise the operations -/

/-- Transport whose open succeeds but whose prompt query and close raise. -/
def tPromptFail : Transport :=
  { connectHandler := fun _ => .ok 0,
    find_prompt := fun _ => .error (.other "link down"),
    send_command := fun _ _ _ _ _ => .ok (.raw ""),
    send_config_set := fun _ _ _ => .ok "",
    disconnect := fun _ => .error (.other "close failed") }

/-- Transport whose open raises an authentication error that echoes the
supplied password. -/
def tEcho : Transport :=
  { connectHandler := fun _ => .error (.auth "login for admin with pw999 refused"),
    find_prompt := fun _ => .ok "R1#",
    send_command := fun _ _ _ _ _ => .ok (.raw ""),
    send_config_set := fun _ _ _ => .ok "",
    disconnect := fun _ => .ok () }

/-- Fully healthy transport. -/
def tGood : Transport :=
  { connectHandler := fun _ => .ok 7,
    find_prompt := fun _ => .ok "R1#",
    send_command := fun _ _ _ _ _ => .ok (.raw "Cisco IOS"),
    send_config_set := fun _ _ _ => .ok "configured",
    disconnect := fun _ => .ok () }

/-- A sample recorded configuration. -/
def cfg1 : DeviceConfig :=
  { host := "10.0.0.1", device_type := "cisco_ios",
    username := "admin", password := "pw999" }

/-- A state with one connected device `r1`. -/
def sOne : ServerState := ⟨[("r1", 0)], [("r1", cfg1)]⟩

/-- Connect arguments matching `cfg1`. -/
def args1 : ConnectArgs :=
  { device_id := "r1", host := "10.0.0.1", device_type := "cisco_ios",
    username := "admin", password := "pw999" }

/-! ### Association-list lemmas -/

theorem lookup_updAssoc_self {α : Type} (k : String) (v : α)
    (m : List (String × α)) : lookupKey k (updAssoc k v m) = some v := by
  induction m with
  | nil => simp [updAssoc, lookupKey]
  | cons p rest ih =>
    by_cases h : p.1 = k
    · simp [updAssoc, h, lookupKey]
    · simp [updAssoc, h, lookupKey, ih]

theorem lookup_updAssoc_ne {α : Type} (k k₂ : String) (v : α)
    (m : List (String × α)) (hne : k ≠ k₂) :
    lookupKey k (updAssoc k₂ v m) = lookupKey k m := by
  have hne2 : ¬(k₂ = k) := fun hh => hne hh.symm
  induction m with
  | nil => simp [updAssoc, lookupKey, hne2]
  | cons p rest ih =>
    by_cases h : p.1 = k₂
    · simp [updAssoc, h, lookupKey, hne2]
    · simp only [updAssoc, h, if_false]
      by_cases h2 : p.1 = k
      · simp [lookupKey, h2]
      · simp [lookupKey, h2, ih]

theorem lookup_updAssoc_isSome {α : Type} (k k₂ : String) (v : α)
    (m : List (String × α)) (h : (lookupKey k m).isSome) :
    (lookupKey k (updAssoc k₂ v m)).isSome := by
  by_cases he : k = k₂
  · subst he; simp [lookup_updAssoc_self]
  · rw [lookup_updAssoc_ne k k₂ v m he]; exact h

theorem mem_updAssoc {α : Type} (k : String) (v : α) (p : String × α) :
    ∀ m : List (String × α), p ∈ updAssoc k v m → p = (k, v) ∨ p ∈ m := by
  intro m
  induction m with
  | nil =>
    intro h
    simp only [updAssoc, List.mem_singleton] at h
    exact Or.inl h
  | cons q rest ih =>
    intro h
    simp only [updAssoc] at h
    by_cases hq : q.1 = k
    · rw [if_pos hq] at h
      rcases List.mem_cons.mp h with h1 | h1
      · exact Or.inl h1
      · exact Or.inr (List.mem_cons_of_mem q h1)
    · rw [if_neg hq] at h
      rcases List.mem_cons.mp h with h1 | h1
      · exact Or.inr (List.mem_cons.mpr (Or.inl h1))
      · rcases ih h1 with h2 | h2
        · exact Or.inl h2
        · exact Or.inr (List.mem_cons_of_mem q h2)

theorem mem_delAssoc {α : Type} (k : String) (p : String × α) :
    ∀ m : List (String × α), p ∈ delAssoc k m → p ∈ m := by
  intro m
  induction m with
  | nil => intro h; exact absurd h (by simp [delAssoc])
  | cons q rest ih =>
    intro h
    simp only [delAssoc] at h
    by_cases hq : q.1 = k
    · rw [if_pos hq] at h
      exact List.mem_cons_of_mem q (ih h)
    · rw [if_neg hq] at h
      rcases List.mem_cons.mp h with h1 | h1
      · exact List.mem_cons.mpr (Or.inl h1)
      · exact List.mem_cons_of_mem q (ih h1)

theorem lookup_delAssoc_self {α : Type} (k : String)
    (m : List (String × α)) : lookupKey k (delAssoc k m) = none := by
  induction m with
  | nil => simp [delAssoc, lookupKey]
  | cons q rest ih =>
    by_cases hq : q.1 = k
    · simp [delAssoc, hq, ih]
    · simp [delAssoc, hq, lookupKey, ih]

/-! ### State-effect lemmas for the read-only operations -/

theorem send_command_fst (t : Transport) (s : ServerState)
    (device_id command : String) (u sp sc : Bool) :
    (send_command t s device_id command u sp sc).1 = s := by
  cases h : lookupKey device_id s.connections with
  | none => simp [send_command, h]
  | some conn =>
    cases h2 : t.send_command conn command u sp sc with
    | error e => simp [send_command, h, h2]
    | ok output => simp [send_command, h, h2]

theorem send_config_commands_fst (t : Transport) (s : ServerState)
    (device_id : String) (commands : List String) (ecm : Bool) :
    (send_config_commands t s device_id commands ecm).1 = s := by
  cases h : lookupKey device_id s.connections with
  | none => simp [send_config_commands, h]
  | some conn =>
    cases h2 : t.send_config_set conn commands ecm with
    | error e => simp [send_config_commands, h, h2]
    | ok output => simp [send_config_commands, h, h2]

theorem get_device_info_fst (t : Transport) (s : ServerState)
    (device_id : String) : (get_device_info t s device_id).1 = s := by
  cases h : lookupKey device_id s.connections with
  | none => simp [get_device_info, h]
  | some conn =>
    cases hc : lookupKey device_id s.device_configs with
    | none => simp [get_device_info, h, hc]
    | some config =>
      cases h2 : t.find_prompt conn with
      | error e => simp [get_device_info, h, hc, h2]
      | ok prompt => simp [get_device_info, h, hc, h2]

theorem list_connected_devices_fst (t : Transport) (s : ServerState) :
    (list_connected_devices t s).1 = s := by
  cases hc : s.connections with
  | nil => simp [list_connected_devices, hc]
  | cons c rest =>
    cases hb : buildEntries t s.device_configs (c :: rest) with
    | error e => simp [list_connected_devices, hc, hb]
    | ok entries => simp [list_connected_devices, hc, hb]

/-! ### Invariant preservation -/

theorem inv_connect (t : Transport) (s : ServerState) (a : ConnectArgs)
    (h : Inv s) : Inv (connect_device t s a).1 := by
  cases hc : t.connectHandler (mkParams a) with
  | error e =>
    have hst : (connect_device t s a).1 =
        { s with device_configs := updAssoc a.device_id (mkConfig a) s.device_configs } := by
      simp [connect_device, hc]
    rw [hst]
    intro p hp
    exact lookup_updAssoc_isSome p.1 a.device_id (mkConfig a) s.device_configs (h p hp)
  | ok conn =>
    have h2 : Inv (ServerState.mk (updAssoc a.device_id conn s.connections)
        (updAssoc a.device_id (mkConfig a) s.device_configs)) := by
      intro p hp
      rcases mem_updAssoc a.device_id conn p s.connections hp with h1 | h1
      · have : p.1 = a.device_id := by rw [h1]
        rw [this, lookup_updAssoc_self]
        rfl
      · exact lookup_updAssoc_isSome p.1 a.device_id (mkConfig a) s.device_configs (h p h1)
    cases hp : t.find_prompt conn with
    | error e =>
      have hst : (connect_device t s a).1 =
          ServerState.mk (updAssoc a.device_id conn s.connections)
            (updAssoc a.device_id (mkConfig a) s.device_configs) := by
        simp [connect_device, hc, hp]
      rw [hst]; exact h2
    | ok prompt =>
      have hst : (connect_device t s a).1 =
          ServerState.mk (updAssoc a.device_id conn s.connections)
            (updAssoc a.device_id (mkConfig a) s.device_configs) := by
        simp [connect_device, hc, hp]
      rw [hst]; exact h2

theorem inv_disconnect (t : Transport) (s : ServerState) (device_id : String)
    (h : Inv s) : Inv (disconnect_device t s device_id).1 := by
  cases hc : lookupKey device_id s.connections with
  | none =>
    have hst : (disconnect_device t s device_id).1 = s := by
      simp [disconnect_device, hc]
    rw [hst]; exact h
  | some conn =>
    cases hd : t.disconnect conn with
    | ok u =>
      have hst : (disconnect_device t s device_id).1 =
          { s with connections := delAssoc device_id s.connections } := by
        simp [disconnect_device, hc, hd]
      rw [hst]
      intro p hp
      exact h p (mem_delAssoc device_id p s.connections hp)
    | error e =>
      have hst : (disconnect_device t s device_id).1 = s := by
        simp [disconnect_device, hc, hd]
      rw [hst]; exact h

theorem handle_call_tool_fst (t : Transport) (s : ServerState) (call : ToolCall) :
    (handle_call_tool t s call).1 = (dispatch t s call).1 := by
  cases hd : dispatch t s call with
  | mk s2 o => cases o <;> simp [handle_call_tool, hd]

theorem inv_handle (t : Transport) (s : ServerState) (call : ToolCall)
    (h : Inv s) : Inv (handle_call_tool t s call).1 := by
  rw [handle_call_tool_fst]
  cases call with
  | connect a => exact inv_connect t s a h
  | disconnect device_id => exact inv_disconnect t s device_id h
  | sendCommand device_id command u sp sc =>
    show Inv (send_command t s device_id command u sp sc).1
    rw [send_command_fst]; exact h
  | sendConfigSet device_id commands ecm =>
    show Inv (send_config_commands t s device_id commands ecm).1
    rw [send_config_commands_fst]; exact h
  | getDeviceInfo device_id =>
    show Inv (get_device_info t s device_id).1
    rw [get_device_info_fst]; exact h
  | listConnectedDevices =>
    show Inv (list_connected_devices t s).1
    rw [list_connected_devices_fst]; exact h

theorem inv_foldl (calls : List (Transport × ToolCall)) :
    ∀ s : ServerState, Inv s →
      Inv (calls.foldl (fun s c => (handle_call_tool c.1 s c.2).1) s) := by
  induction calls with
  | nil => intro s h; exact h
  | cons c rest ih =>
    intro s h
    exact ih _ (inv_handle c.1 s c.2 h)

/-! ### List infix and entry-building lemmas -/

theorem infix_append_left {α : Type} {w m : List α} (pre : List α)
    (h : w <:+: m) : w <:+: pre ++ m := by
  obtain ⟨u, v, huv⟩ := h
  refine ⟨pre ++ u, v, ?_⟩
  rw [← huv]
  simp [List.append_assoc]

theorem buildEntries_ok (t : Transport) (cfgs : List (String × DeviceConfig)) :
    ∀ conns : List (String × Session),
      (∀ p ∈ conns, (lookupKey p.1 cfgs).isSome) →
      (∀ conn, ∃ pr, t.find_prompt conn = .ok pr) →
      ∃ entries, buildEntries t cfgs conns = .ok entries ∧
        List.Forall₂ (fun (c : String × Session) (e : DeviceEntry) =>
          e.device_id = c.1 ∧ t.find_prompt c.2 = .ok e.prompt) conns entries := by
  intro conns
  induction conns with
  | nil => intro _ _; exact ⟨[], rfl, List.Forall₂.nil⟩
  | cons c rest ih =>
    intro hcfg hp
    obtain ⟨device_id, conn⟩ := c
    obtain ⟨cfg, hcfg1⟩ := Option.isSome_iff_exists.mp
      (hcfg (device_id, conn) (List.mem_cons_self _ rest))
    obtain ⟨pr, hpr⟩ := hp conn
    obtain ⟨entries, hbe, hfa⟩ :=
      ih (fun p hp2 => hcfg p (List.mem_cons_of_mem _ hp2)) hp
    refine ⟨⟨device_id, cfg.host, cfg.device_type, pr⟩ :: entries, ?_, ?_⟩
    · simp [buildEntries, hcfg1, hpr, hbe]
    · exact List.Forall₂.cons ⟨rfl, hpr⟩ hfa

/-! ### Every operation body except the listing one yields a `Result` -/

theorem connect_device_res (t : Transport) (s : ServerState) (a : ConnectArgs) :
    ∃ r, (connect_device t s a).2 = Outcome.res r := by
  cases hc : t.connectHandler (mkParams a) with
  | error e => exact ⟨.err (connectErrMsg a.device_id e), by simp [connect_device, hc]⟩
  | ok conn =>
    cases hp : t.find_prompt conn with
    | error e => exact ⟨.err (connectErrMsg a.device_id e), by simp [connect_device, hc, hp]⟩
    | ok prompt =>
      exact ⟨.ok ("Successfully connected to device " ++ a.device_id ++ " (" ++
        a.host ++ "). Device prompt: " ++ prompt), by simp [connect_device, hc, hp]⟩

theorem disconnect_device_res (t : Transport) (s : ServerState) (device_id : String) :
    ∃ r, (disconnect_device t s device_id).2 = Outcome.res r := by
  cases hc : lookupKey device_id s.connections with
  | none =>
    exact ⟨.ok ("Device " ++ device_id ++ " is not connected"),
      by simp [disconnect_device, hc]⟩
  | some conn =>
    cases hd : t.disconnect conn with
    | ok u =>
      exact ⟨.ok ("Successfully disconnected from device " ++ device_id),
        by simp [disconnect_device, hc, hd]⟩
    | error e =>
      exact ⟨.err ("Error disconnecting from device " ++ device_id ++ ": " ++
        TransportError.text e), by simp [disconnect_device, hc, hd]⟩

theorem send_command_res (t : Transport) (s : ServerState)
    (device_id command : String) (u sp sc : Bool) :
    ∃ r, (send_command t s device_id command u sp sc).2 = Outcome.res r := by
  cases hc : lookupKey device_id s.connections with
  | none =>
    exact ⟨.err ("Device " ++ device_id ++ " is not connected. Please connect first."),
      by simp [send_command, hc]⟩
  | some conn =>
    cases h2 : t.send_command conn command u sp sc with
    | error e =>
      exact ⟨.err ("Error executing command on device " ++ device_id ++ ": " ++
        TransportError.text e), by simp [send_command, hc, h2]⟩
    | ok output =>
      exact ⟨.ok ("Command: " ++ command ++ "\n\nOutput:\n" ++ formatCmdOutput u output),
        by simp [send_command, hc, h2]⟩

theorem send_config_commands_res (t : Transport) (s : ServerState)
    (device_id : String) (commands : List String) (ecm : Bool) :
    ∃ r, (send_config_commands t s device_id commands ecm).2 = Outcome.res r := by
  cases hc : lookupKey device_id s.connections with
  | none =>
    exact ⟨.err ("Device " ++ device_id ++ " is not connected. Please connect first."),
      by simp [send_config_commands, hc]⟩
  | some conn =>
    cases h2 : t.send_config_set conn commands ecm with
    | error e =>
      exact ⟨.err ("Error executing config commands on device " ++ device_id ++ ": " ++
        TransportError.text e), by simp [send_config_commands, hc, h2]⟩
    | ok output =>
      exact ⟨.ok ("Configuration commands executed:\n" ++
        String.intercalate "\n" commands ++ "\n\nOutput:\n" ++ output),
        by simp [send_config_commands, hc, h2]⟩

theorem get_device_info_res (t : Transport) (s : ServerState) (device_id : String) :
    ∃ r, (get_device_info t s device_id).2 = Outcome.res r := by
  cases hc : lookupKey device_id s.connections with
  | none =>
    exact ⟨.err ("Device " ++ device_id ++ " is not connected. Please connect first."),
      by simp [get_device_info, hc]⟩
  | some conn =>
    cases hg : lookupKey device_id s.device_configs with
    | none =>
      exact ⟨.err ("Error getting device info for " ++ device_id ++ ": " ++
        keyErrorText device_id), by simp [get_device_info, hc, hg]⟩
    | some config =>
      cases h2 : t.find_prompt conn with
      | error e =>
        exact ⟨.err ("Error getting device info for " ++ device_id ++ ": " ++
          TransportError.text e), by simp [get_device_info, hc, hg, h2]⟩
      | ok prompt =>
        exact ⟨.ok (deviceInfoJson device_id config prompt),
          by simp [get_device_info, hc, hg, h2]⟩

theorem handle_call_tool_res (t : Transport) (s : ServerState) (call : ToolCall) :
    ∃ r, (handle_call_tool t s call).2 = Outcome.res r := by
  cases hd : dispatch t s call with
  | mk s2 o =>
    cases o with
    | res r => exact ⟨r, by simp [handle_call_tool, hd]⟩
    | raised e =>
      exact ⟨.err ("Error: " ++ TransportError.text e), by simp [handle_call_tool, hd]⟩

/-! ### Claim theorems -/

/-- C1 counterexample: with a transport whose `close` raises, `disconnect`
on the connected device `r1` leaves the session entry in the registry (the
claim asserts it would be removed) while returning the close-error failure
Result. -/
theorem c1_counterexample :
    lookupKey "r1" (disconnect_device tPromptFail sOne "r1").1.connections = some 0 ∧
    (disconnect_device tPromptFail sOne "r1").2 =
      .res (.err "Error disconnecting from device r1: close failed") :=
  ⟨by decide, by decide⟩

/-- C1 (amended): for a device with a live session, `disconnect` removes the
session entry exactly when the transport close succeeds; when the close
raises, a failure Result describing the close error is returned and the
session entry remains in the registry. -/
theorem c1_disconnect_removal (t : Transport) (s : ServerState)
    (device_id : String) (conn : Session)
    (h : lookupKey device_id s.connections = some conn) :
    (∀ u, t.disconnect conn = .ok u →
      disconnect_device t s device_id =
        ({ s with connections := delAssoc device_id s.connections },
          .res (.ok ("Successfully disconnected from device " ++ device_id))) ∧
      lookupKey device_id (disconnect_device t s device_id).1.connections = none) ∧
    (∀ e, t.disconnect conn = .error e →
      disconnect_device t s device_id =
        (s, .res (.err ("Error disconnecting from device " ++ device_id ++ ": " ++
          TransportError.text e))) ∧
      lookupKey device_id (disconnect_device t s device_id).1.connections = some conn) := by
  constructor
  · intro u hu
    have heq : disconnect_device t s device_id =
        ({ s with connections := delAssoc device_id s.connections },
          .res (.ok ("Successfully disconnected from device " ++ device_id))) := by
      simp [disconnect_device, h, hu]
    exact ⟨heq, by rw [heq]; exact lookup_delAssoc_self device_id s.connections⟩
  · intro e he
    have heq : disconnect_device t s device_id =
        (s, .res (.err ("Error disconnecting from device " ++ device_id ++ ": " ++
          TransportError.text e))) := by
      simp [disconnect_device, h, he]
    exact ⟨heq, by rw [heq]; exact h⟩

/-- C1 witness: the amended theorem applied at concrete inputs — a clean
close removes `r1`, a raising close keeps it. -/
theorem c1_witness :
    lookupKey "r1" sOne.connections = some 0 ∧
    lookupKey "r1" (disconnect_device tGood sOne "r1").1.connections = none ∧
    lookupKey "r1" (disconnect_device tPromptFail sOne "r1").1.connections = some 0 :=
  ⟨by decide,
   ((c1_disconnect_removal tGood sOne "r1" 0 (by decide)).1 () rfl).2,
   ((c1_disconnect_removal tPromptFail sOne "r1" 0 (by decide)).2
     (.other "close failed") rfl).2⟩

/-- C2 counterexample: when `ConnectHandler` succeeds but the `find_prompt`
liveness check raises (a transport failure of the connect attempt), the
operation returns a failure Result AND a session entry has been stored —
the claim asserts no session is stored on any transport failure. -/
theorem c2_counterexample :
    (connect_device tPromptFail initState args1).2 =
      .res (.err "Failed to connect to device r1: link down") ∧
    lookupKey "r1" (connect_device tPromptFail initState args1).1.connections = some 0 :=
  ⟨by decide, by decide⟩

/-- C2 (amended): the configuration is always recorded; when the transport
open itself raises, no session is stored and the cause-specific failure
Result is returned; when the open succeeds but the `find_prompt` liveness
check raises, the failure Result is returned but the session entry has
already been stored. -/
theorem c2_connect_failure (t : Transport) (s : ServerState) (a : ConnectArgs) :
    (∀ e, t.connectHandler (mkParams a) = .error e →
      connect_device t s a =
        ({ s with device_configs := updAssoc a.device_id (mkConfig a) s.device_configs },
          .res (.err (connectErrMsg a.device_id e))) ∧
      (connect_device t s a).1.connections = s.connections ∧
      lookupKey a.device_id (connect_device t s a).1.device_configs =
        some (mkConfig a)) ∧
    (∀ conn e, t.connectHandler (mkParams a) = .ok conn →
      t.find_prompt conn = .error e →
      (connect_device t s a).2 = .res (.err (connectErrMsg a.device_id e)) ∧
      lookupKey a.device_id (connect_device t s a).1.connections = some conn ∧
      lookupKey a.device_id (connect_device t s a).1.device_configs =
        some (mkConfig a)) := by
  constructor
  · intro e he
    have heq : connect_device t s a =
        ({ s with device_configs := updAssoc a.device_id (mkConfig a) s.device_configs },
          .res (.err (connectErrMsg a.device_id e))) := by
      simp [connect_device, he]
    refine ⟨heq, by rw [heq], ?_⟩
    rw [heq]
    exact lookup_updAssoc_self a.device_id (mkConfig a) s.device_configs
  · intro conn e hc he
    have heq : connect_device t s a =
        (ServerState.mk (updAssoc a.device_id conn s.connections)
          (updAssoc a.device_id (mkConfig a) s.device_configs),
          .res (.err (connectErrMsg a.device_id e))) := by
      simp [connect_device, hc, he]
    refine ⟨by rw [heq], ?_, ?_⟩
    · rw [heq]
      exact lookup_updAssoc_self a.device_id conn s.connections
    · rw [heq]
      exact lookup_updAssoc_self a.device_id (mkConfig a) s.device_configs

/-- C2 witness: the amended theorem applied at concrete inputs — an
authentication failure records the config and stores no session; a prompt
failure after a successful open leaves a stored session. -/
theorem c2_witness :
    lookupKey "r1" (connect_device tEcho initState args1).1.device_configs =
      some (mkConfig args1) ∧
    (connect_device tEcho initState args1).1.connections = initState.connections ∧
    lookupKey "r1" (connect_device tPromptFail initState args1).1.connections = some 0 :=
  ⟨((c2_connect_failure tEcho initState args1).1
      (.auth "login for admin with pw999 refused") rfl).2.2,
   ((c2_connect_failure tEcho initState args1).1
      (.auth "login for admin with pw999 refused") rfl).2.1,
   ((c2_connect_failure tPromptFail initState args1).2 0 (.other "link down")
      rfl rfl).2.1⟩

/-- C3 counterexample: `_list_connected_devices` has no `try`/`except`, so a
raising prompt query escapes the operation itself (the dispatcher above it
is what catches it) — the claim asserts no operation ever lets an exception
propagate out. -/
theorem c3_counterexample :
    (list_connected_devices tPromptFail sOne).2 = .raised (.other "link down") := by
  decide

/-- C3 (amended): connect, disconnect, sendCommand, sendConfigSet and
getDeviceInfo each catch every transport exception and return a Result;
listConnectedDevices can let a prompt-query exception escape, but the tool
dispatcher catches it, so every dispatched tool call still returns a
Result. -/
theorem c3_operations_return_results :
    (∀ t s a, ∃ r, (connect_device t s a).2 = Outcome.res r) ∧
    (∀ t s device_id, ∃ r, (disconnect_device t s device_id).2 = Outcome.res r) ∧
    (∀ t s device_id command u sp sc,
      ∃ r, (send_command t s device_id command u sp sc).2 = Outcome.res r) ∧
    (∀ t s device_id commands ecm,
      ∃ r, (send_config_commands t s device_id commands ecm).2 = Outcome.res r) ∧
    (∀ t s device_id, ∃ r, (get_device_info t s device_id).2 = Outcome.res r) ∧
    (∀ t s call, ∃ r, (handle_call_tool t s call).2 = Outcome.res r) :=
  ⟨connect_device_res, disconnect_device_res, send_command_res,
   send_config_commands_res, get_device_info_res, handle_call_tool_res⟩

/-- C4 counterexample: the authentication-failure Result for `r1`
interpolates the transport exception text verbatim, and that text echoes
the password `pw999` supplied at connect time — so the failure message
contains the literal password, contrary to the claim. -/
theorem c4_counterexample :
    (connect_device tEcho initState args1).2 =
      .res (.err "Authentication failed for device r1: login for admin with pw999 refused") ∧
    args1.password.data <:+:
      "Authentication failed for device r1: login for admin with pw999 refused".data :=
  ⟨by decide, by decide⟩

/-- C4 (amended): no credential scrubbing is performed — whenever the
transport exception text of a failed connect contains a credential string,
the failure Result's message contains it too. -/
theorem c4_no_scrubbing (t : Transport) (s : ServerState) (a : ConnectArgs)
    (e : TransportError) (cred : String)
    (hfail : t.connectHandler (mkParams a) = .error e)
    (hecho : cred.data <:+: (TransportError.text e).data) :
    ∃ msg, (connect_device t s a).2 = .res (.err msg) ∧ cred.data <:+: msg.data := by
  refine ⟨connectErrMsg a.device_id e, by simp [connect_device, hfail], ?_⟩
  cases e with
  | auth m =>
    simp only [TransportError.text] at hecho
    simp only [connectErrMsg]
    rw [String.data_append]
    exact infix_append_left _ hecho
  | timeout m =>
    simp only [TransportError.text] at hecho
    simp only [connectErrMsg]
    rw [String.data_append]
    exact infix_append_left _ hecho
  | other m =>
    simp only [TransportError.text] at hecho
    simp only [connectErrMsg]
    rw [String.data_append]
    exact infix_append_left _ hecho

/-- C4 witness: the amended theorem applied to the credential-echoing
transport and the password supplied in `args1`. -/
theorem c4_witness :
    ∃ msg, (connect_device tEcho initState args1).2 = .res (.err msg) ∧
      args1.password.data <:+: msg.data :=
  c4_no_scrubbing tEcho initState args1 (.auth "login for admin with pw999 refused")
    args1.password rfl (by decide)

/-- C5: the registry invariant — every identifier with a session entry also
has a config entry — holds in the initial state and after every sequence of
dispatched tool calls, whatever each call's transport does. -/
theorem c5_sessions_subset_configs :
    ∀ calls : List (Transport × ToolCall), Inv (runCalls calls) := by
  intro calls
  exact inv_foldl calls initState (fun p hp => absurd hp (List.not_mem_nil p))

/-- C6: with zero live sessions, listing returns the designated
informational message and not a rendered list; with sessions present (in a
state satisfying the registry invariant) and a responsive transport, it
returns exactly one entry per live session, each carrying the prompt
freshly queried from that session. -/
theorem c6_list_connected (t : Transport) (s : ServerState) :
    (s.connections = [] →
      list_connected_devices t s =
        (s, .res (.ok "No devices currently connected"))) ∧
    (Inv s → (∀ conn, ∃ pr, t.find_prompt conn = .ok pr) →
      ∃ entries, buildEntries t s.device_configs s.connections = .ok entries ∧
        entries.length = s.connections.length ∧
        List.Forall₂ (fun (c : String × Session) (e : DeviceEntry) =>
          e.device_id = c.1 ∧ t.find_prompt c.2 = .ok e.prompt)
          s.connections entries ∧
        (s.connections ≠ [] →
          list_connected_devices t s = (s, .res (.ok (renderEntries entries))))) := by
  constructor
  · intro h
    simp [list_connected_devices, h]
  · intro hinv hp
    obtain ⟨entries, hbe, hfa⟩ := buildEntries_ok t s.device_configs s.connections hinv hp
    refine ⟨entries, hbe, (List.Forall₂.length_eq hfa).symm, hfa, ?_⟩
    intro hne
    cases hc : s.connections with
    | nil => exact absurd hc hne
    | cons c rest =>
      rw [hc] at hbe
      simp [list_connected_devices, hc, hbe]

/-- C6 witness: the theorem applied at the empty state and at a one-device
state with a healthy transport. -/
theorem c6_witness :
    (list_connected_devices tGood initState =
      (initState, .res (.ok "No devices currently connected"))) ∧
    (∃ entries, buildEntries tGood sOne.device_configs sOne.connections = .ok entries ∧
      entries.length = sOne.connections.length ∧
      List.Forall₂ (fun (c : String × Session) (e : DeviceEntry) =>
        e.device_id = c.1 ∧ tGood.find_prompt c.2 = .ok e.prompt)
        sOne.connections entries ∧
      (sOne.connections ≠ [] →
        list_connected_devices tGood sOne =
          (sOne, .res (.ok (renderEntries entries))))) :=
  ⟨(c6_list_connected tGood initState).1 rfl,
   (c6_list_connected tGood sOne).2
     (by
       intro p hp
       have h : p = ("r1", 0) := by simpa [sOne] using hp
       rw [h]
       decide)
     (fun conn => ⟨"R1#", rfl⟩)⟩

/-- C7: disconnect on an identifier with no live session returns the
success-shaped informational Result, leaves the registry untouched, and
repeating the call (under any transport) yields the same Result again. -/
theorem c7_disconnect_idempotent (t t₂ : Transport) (s : ServerState)
    (device_id : String) (h : lookupKey device_id s.connections = none) :
    disconnect_device t s device_id =
      (s, .res (.ok ("Device " ++ device_id ++ " is not connected"))) ∧
    disconnect_device t₂ (disconnect_device t s device_id).1 device_id =
      (s, .res (.ok ("Device " ++ device_id ++ " is not connected"))) := by
  have heq : disconnect_device t s device_id =
      (s, .res (.ok ("Device " ++ device_id ++ " is not connected"))) := by
    simp [disconnect_device, h]
  refine ⟨heq, ?_⟩
  rw [heq]
  simp [disconnect_device, h]

/-- C7 witness: the theorem applied to the never-connected identifier `r9`
in a state where only `r1` is connected. -/
theorem c7_witness :
    disconnect_device tGood sOne "r9" =
      (sOne, .res (.ok ("Device " ++ "r9" ++ " is not connected"))) ∧
    disconnect_device tPromptFail (disconnect_device tGood sOne "r9").1 "r9" =
      (sOne, .res (.ok ("Device " ++ "r9" ++ " is not connected"))) :=
  c7_disconnect_idempotent tGood tPromptFail sOne "r9" (by decide)

/-- C8: sendCommand on an identifier with no live session returns the
connect-first failure Result and never consults the transport (the call is
transport-independent); on a live session whose transport returns output,
the message is the command text followed by the rendered output, so the
command stands at the head of the message. -/
theorem c8_send_command (t t₂ : Transport) (s : ServerState)
    (device_id command : String) (u sp sc : Bool) :
    (lookupKey device_id s.connections = none →
      send_command t s device_id command u sp sc =
        (s, .res (.err ("Device " ++ device_id ++
          " is not connected. Please connect first."))) ∧
      send_command t s device_id command u sp sc =
        send_command t₂ s device_id command u sp sc) ∧
    (∀ conn output, lookupKey device_id s.connections = some conn →
      t.send_command conn command u sp sc = .ok output →
      send_command t s device_id command u sp sc =
        (s, .res (.ok ("Command: " ++ command ++ "\n\nOutput:\n" ++
          formatCmdOutput u output)))) := by
  constructor
  · intro h
    constructor <;> simp [send_command, h]
  · intro conn output h hok
    simp [send_command, h, hok]

/-- C8 witness: the theorem applied to a disconnected identifier `r2` and
to the connected identifier `r1` with a healthy transport. -/
theorem c8_witness :
    send_command tGood sOne "r2" "show version" false true true =
      (sOne, .res (.err ("Device " ++ "r2" ++
        " is not connected. Please connect first."))) ∧
    send_command tGood sOne "r1" "show version" false true true =
      (sOne, .res (.ok ("Command: " ++ "show version" ++ "\n\nOutput:\n" ++
        formatCmdOutput false (.raw "Cisco IOS")))) :=
  ⟨((c8_send_command tGood tPromptFail sOne "r2" "show version" false true true).1
      (by decide)).1,
   (c8_send_command tGood tPromptFail sOne "r1" "show version" false true true).2
     0 (.raw "Cisco IOS") (by decide) rfl⟩

/-- C9: sendConfigSet against a connected device reports the supplied
command list verbatim, newline-joined in exactly the order given, followed
by the transport's output. -/
theorem c9_send_config_order (t : Transport) (s : ServerState)
    (device_id : String) (commands : List String) (ecm : Bool)
    (conn : Session) (output : String)
    (h : lookupKey device_id s.connections = some conn)
    (hok : t.send_config_set conn commands ecm = .ok output) :
    send_config_commands t s device_id commands ecm =
      (s, .res (.ok ("Configuration commands executed:\n" ++
        String.intercalate "\n" commands ++ "\n\nOutput:\n" ++ output))) := by
  simp [send_config_commands, h, hok]

/-- C9 witness: the theorem applied to a two-command configuration set on
the connected device `r1`. -/
theorem c9_witness :
    send_config_commands tGood sOne "r1" ["interface Gi0/1", "shutdown"] true =
      (sOne, .res (.ok ("Configuration commands executed:\n" ++
        String.intercalate "\n" ["interface Gi0/1", "shutdown"] ++
        "\n\nOutput:\n" ++ "configured"))) :=
  c9_send_config_order tGood sOne "r1" ["interface Gi0/1", "shutdown"] true
    0 "configured" (by decide) rfl

/-- C10: sendCommand, sendConfigSet, getDeviceInfo and listConnectedDevices
return the server state unchanged — neither registry mapping gains, loses
or replaces an entry — for every state and every transport behaviour. -/
theorem c10_read_only_frame :
    (∀ t s device_id command u sp sc,
      (send_command t s device_id command u sp sc).1 = s) ∧
    (∀ t s device_id commands ecm,
      (send_config_commands t s device_id commands ecm).1 = s) ∧
    (∀ t s device_id, (get_device_info t s device_id).1 = s) ∧
    (∀ t s, (list_connected_devices t s).1 = s) :=
  ⟨send_command_fst, send_config_commands_fst,
   get_device_info_fst, list_connected_devices_fst⟩

end Netmiko
